import Mathlib

set_option autoImplicit false
set_option linter.unusedVariables false

namespace Gateway

/-- The in-memory session registry: an association list from gateway session key to
downstream session identifier, newest binding first.  Models the JavaScript object
`sessions : Record<string, string>`. -/
abbrev Sessions := List (String × String)

/-- Property lookup on the sessions object (first binding wins). -/
def lookupSess : Sessions → String → Option String
  | [], _ => none
  | (k, v) :: rest, key => if k = key then some v else lookupSess rest key

/-- JavaScript truthiness of an optional string: `undefined` and the empty string
are falsy, every other string is truthy. -/
def truthy : Option String → Bool
  | none => false
  | some s => if s = "" then false else true

/-- The guard `if (!sessions[sessionId])`: true when no truthy binding is stored
under the key. -/
def sessAbsent (s : Sessions) (k : String) : Bool := !(truthy (lookupSess s k))

/-- Outcome of the downstream POST to /api/init as seen after `response.json()`:
either a parsed body carrying the confirmation message (the `tools` field is
irrelevant to control flow), or a thrown transport or parse error. -/
inductive InitResult where
  | reply (message : String)
  | netErr (e : String)
  deriving DecidableEq, Repr

/-- Parsed JSON body of a downstream /api/chat reply.  A field is `some` exactly
when it is present with a string value; absent or null is `none`. -/
structure ChatBody where
  response : Option String
  toolUsed : Option String
  error : Option String
  deriving DecidableEq, Repr

/-- Outcome of the downstream POST to /api/chat: an HTTP reply whose body may fail
JSON parsing (`none`), or a thrown transport error. -/
inductive ChatFetch where
  | reply (status : Nat) (body : Option ChatBody)
  | netErr (e : String)
  deriving DecidableEq, Repr

/-- node-fetch `response.ok`: HTTP status in the 2xx range. -/
def isOk (status : Nat) : Bool := decide (200 ≤ status) && decide (status < 300)

/-- A tool handler result: content text, the isError flag (an absent field is
falsy, modelled as `false`), and the optional metadata object carrying toolUsed. -/
structure ToolResult where
  text : String
  isError : Bool
  metadata : Option (Option String)
  deriving DecidableEq, Repr

/-- An error-shaped tool result: explanatory text, isError set, no metadata. -/
def mkToolErr (t : String) : ToolResult := ⟨t, true, none⟩

/-- One turn of a prompt handler exchange. -/
structure PMsg where
  role : String
  text : String
  deriving DecidableEq, Repr

/-- The suffix naming the downstream tool, appended when `data.toolUsed` is truthy. -/
def toolSuffix (tu : Option String) : String :=
  if truthy tu then "\n\n(Tool used: " ++ tu.getD "" ++ ")" else ""

/-- JavaScript string coercion performed by `data.response + suffix` in the bakery
variant when the field is absent: undefined renders as the string undefined. -/
def jsStr : Option String → String
  | some s => s
  | none => "undefined"

/-- The downstream init outcome that initSession accepts. -/
def goodInit : InitResult → Bool
  | .reply m => if m = "Session initialized successfully" then true else false
  | .netErr _ => false

namespace Insurance

/-- initSession of the context-keyed gateway (src/src/index.ts lines 211-236):
stores `sessions[sessionId] = sessionId` only when the confirmation message equals
the expected literal; otherwise the inner throw is caught and rethrown wrapped, and
a transport or parse failure is likewise rethrown wrapped. -/
def initSession (s : Sessions) (sessionId : String) (r : InitResult) :
    Except String Sessions :=
  match r with
  | .netErr e => .error ("Failed to initialize session: " ++ e)
  | .reply m =>
    if m = "Session initialized successfully" then
      .ok ((sessionId, sessionId) :: s)
    else
      .error "Failed to initialize session: Error: Failed to initialize session with Health Shield Insurance"

/-- The InsuranceRequest tool handler (src/src/index.ts lines 119-207).  The
missing-session-key throw and the initSession call sit outside the try block, so
both surface as `.error` (a thrown exception); every failure inside the try is
rendered as a ToolResult with isError set. -/
def InsuranceRequest (s : Sessions) (prompt : String) (sessionId : Option String)
    (initR : InitResult) (chatR : ChatFetch) :
    Except String (ToolResult × Sessions) :=
  if truthy sessionId = false then
    .error "Session ID is missing from the context."
  else
    let sid := sessionId.getD ""
    match (if sessAbsent s sid then initSession s sid initR else .ok s) with
    | .error e => .error e
    | .ok s2 =>
      match chatR with
      | .netErr e =>
        .ok (mkToolErr ("Error communicating with Health Shield Insurance: " ++ e), s2)
      | .reply status body =>
        if isOk status = false then
          .ok (mkToolErr ("Error communicating with Health Shield Insurance: Status " ++ toString status), s2)
        else
          match body with
          | none =>
            .ok (mkToolErr "Error communicating with Health Shield Insurance: SyntaxError", s2)
          | some b =>
            if truthy b.error then
              .ok (mkToolErr ("Insurance client reported an error: " ++ b.error.getD ""), s2)
            else
              match b.response with
              | some t => .ok (⟨t, false, some b.toolUsed⟩, s2)
              | none =>
                .ok (mkToolErr "Received an invalid response structure from the insurance service.", s2)

/-- The chat prompt handler of the context-keyed gateway (src/src/index.ts lines
24-110).  Every failure path, including a missing session key, returns a single
assistant message; nothing is thrown. -/
def chatPrompt (s : Sessions) (message : String) (sessionId : Option String)
    (initR : InitResult) (chatR : ChatFetch) :
    Except String (List PMsg × Sessions) :=
  if truthy sessionId = false then
    .ok ([⟨"assistant", "Internal error: Missing session ID."⟩], s)
  else
    let sid := sessionId.getD ""
    match (if sessAbsent s sid then initSession s sid initR else .ok s) with
    | .error _ =>
      .ok ([⟨"assistant", "Sorry, I couldn\x27t prepare the chat session."⟩], s)
    | .ok s2 =>
      match chatR with
      | .netErr _ =>
        .ok ([⟨"assistant", "Sorry, an unexpected error occurred while processing your chat message."⟩], s2)
      | .reply status body =>
        if isOk status = false then
          .ok ([⟨"assistant", "Sorry, there was an issue communicating with the insurance service (Status: " ++ toString status ++ ")."⟩], s2)
        else
          match body with
          | none =>
            .ok ([⟨"assistant", "Sorry, an unexpected error occurred while processing your chat message."⟩], s2)
          | some b =>
            if truthy b.error then
              .ok ([⟨"assistant", "Sorry, the insurance service reported an error: " ++ b.error.getD ""⟩], s2)
            else
              .ok ([⟨"user", message⟩,
                    ⟨"assistant", (b.response.getD "(No response text received)") ++ toolSuffix b.toolUsed⟩], s2)

end Insurance

namespace Bakery

/-- initSession of the bakery gateway (src/unnamed/part_001 lines 128-155): a fresh
identifier is generated from time and randomness (modelled as the parameter
`freshId`) and stored under the fixed key currentSessionId only on the literal
confirmation message. -/
def initSession (s : Sessions) (freshId : String) (r : InitResult) :
    Except String Sessions :=
  match r with
  | .netErr e => .error ("Failed to initialize session: " ++ e)
  | .reply m =>
    if m = "Session initialized successfully" then
      .ok (("currentSessionId", freshId) :: s)
    else
      .error "Failed to initialize session: Error: Failed to initialize session with Flour Bakery"

/-- The bakery chat prompt handler (src/unnamed/part_001 lines 21-69): no context
session key, no HTTP status check; a transport or parse failure inside the try is
rethrown as a new error, and an init failure propagates from outside the try. -/
def chatPrompt (s : Sessions) (message : String) (freshId : String)
    (initR : InitResult) (chatR : ChatFetch) :
    Except String (List PMsg × Sessions) :=
  match (if sessAbsent s "currentSessionId" then initSession s freshId initR else .ok s) with
  | .error e => .error e
  | .ok s2 =>
    match chatR with
    | .netErr e => .error ("Failed to chat with Claude: " ++ e)
    | .reply _ body =>
      match body with
      | none => .error "Failed to chat with Claude: SyntaxError"
      | some b =>
        .ok ([⟨"user", message⟩,
              ⟨"assistant", jsStr b.response ++ toolSuffix b.toolUsed⟩], s2)

/-- The BakeryRequest tool handler (src/unnamed/part_001 lines 72-125): no HTTP
status check and no shape check on the body; only a throw inside the try (transport
or JSON parse failure) produces an isError result, and an init failure propagates
from outside the try. -/
def BakeryRequest (s : Sessions) (prompt : String) (freshId : String)
    (initR : InitResult) (chatR : ChatFetch) :
    Except String (ToolResult × Sessions) :=
  match (if sessAbsent s "currentSessionId" then initSession s freshId initR else .ok s) with
  | .error e => .error e
  | .ok s2 =>
    match chatR with
    | .netErr e => .ok (mkToolErr ("Error communicating with Flour Bakery: " ++ e), s2)
    | .reply _ body =>
      match body with
      | none => .ok (mkToolErr "Error communicating with Flour Bakery: SyntaxError", s2)
      | some b => .ok (⟨jsStr b.response, false, some b.toolUsed⟩, s2)

end Bakery

/-- Outcome of `transport.handlePostMessage(req, res)` as observed by the POST
/messages route: either it handles the response itself, or it throws, possibly
after headers were already sent. -/
inductive Dispatch where
  | handled
  | threw (headersSent : Bool) (e : String)
  deriving DecidableEq, Repr

/-- The POST /messages route handler (src/src/index.ts lines 353-379): returns the
status and body written by the route itself, or `none` when the transport was left
to write the response. -/
def messagesPost (transports : List String) (sessionId : Option String)
    (d : Dispatch) : Option (Nat × String) :=
  if truthy sessionId = false then
    some (400, "Missing sessionId parameter")
  else
    let sid := sessionId.getD ""
    if transports.contains sid then
      match d with
      | .handled => none
      | .threw headersSent e =>
        if headersSent then none else some (500, "Error handling message: " ++ e)
    else
      some (404, "No transport found for sessionId: " ++ sid)

/-- The downstream chat outcomes that the InsuranceRequest handler renders as an
isError result: transport error, non-2xx status, JSON parse failure, truthy
application error field, or a missing or non-string response field. -/
def chatFails : ChatFetch → Bool
  | .netErr _ => true
  | .reply status body =>
    if isOk status = false then true
    else
      match body with
      | none => true
      | some b => truthy b.error || b.response.isNone

/-- The downstream chat outcomes that the BakeryRequest handler renders as an
isError result: only transport and JSON parse failures (no status or shape check). -/
def bakeryChatFails : ChatFetch → Bool
  | .netErr _ => true
  | .reply _ body => body.isNone

/-- The downstream chat outcomes that the context-keyed chat prompt handler
renders as a failure: transport error, non-2xx status, JSON parse failure, or a
truthy application error field. -/
def promptChatFails : ChatFetch → Bool
  | .netErr _ => true
  | .reply status body =>
    if isOk status = false then true
    else
      match body with
      | none => true
      | some b => truthy b.error

/-- The failure paths of the context-keyed chat prompt handler once a session key
is known: a needed initialization that fails, or any failing chat outcome. -/
def promptFails (s : Sessions) (sid : String) (initR : InitResult)
    (chatR : ChatFetch) : Bool :=
  (sessAbsent s sid && !(goodInit initR)) || promptChatFails chatR

/-- One capability invocation against the context-keyed gateway: the session key
taken from the transport context, together with the downstream oracle for the
init and chat calls this invocation would trigger. -/
structure Invocation where
  sid : String
  initR : InitResult
  chatR : ChatFetch
  deriving DecidableEq, Repr

/-- Observable downstream calls issued by an invocation. -/
inductive Event where
  | initCall (k : String)
  | chatCall (k : String)
  deriving DecidableEq, Repr

/-- The session key an event concerns. -/
def eventKey : Event → String
  | .initCall k => k
  | .chatCall k => k

/-- One sequential capability invocation of the context-keyed gateway, as both the
chat prompt and the tool handler perform it: bail out on a falsy key, initialize
when no truthy mapping is stored (stopping there when initialization fails, since
both handlers abandon the chat call then), and otherwise forward the message. -/
def stepEvents (s : Sessions) (i : Invocation) : Sessions × List Event :=
  if i.sid = "" then (s, [])
  else if sessAbsent s i.sid then
    match Insurance.initSession s i.sid i.initR with
    | .error _ => (s, [.initCall i.sid])
    | .ok s2 => (s2, [.initCall i.sid, .chatCall i.sid])
  else
    (s, [.chatCall i.sid])

/-- Run a sequence of capability invocations (the runtime processes one callback
at a time), collecting the downstream calls issued. -/
def runTrace : Sessions → List Invocation → Sessions × List Event
  | s, [] => (s, [])
  | s, i :: tr =>
    let p := stepEvents s i
    let q := runTrace p.1 tr
    (q.1, p.2 ++ q.2)

/-- Number of downstream initialize calls issued for a given key. -/
def countInit (evs : List Event) (k : String) : Nat :=
  (evs.filter (fun e => e == Event.initCall k)).length

/-- The subsequence of events concerning a given key. -/
def eventsFor (evs : List Event) (k : String) : List Event :=
  evs.filter (fun e => eventKey e == k)

/-- Progress of one in-flight capability invocation of the context-keyed gateway,
split at its await points: the guard read happens at start; the task then
suspends while the awaited downstream init call is in flight (the store has not
happened yet); the store and the chat forward happen only when the init reply
arrives. -/
inductive TaskPhase where
  | start
  | awaitingInit
  | done
  deriving DecidableEq, Repr

/-- One in-flight invocation together with its progress. -/
structure TaskState where
  inv : Invocation
  phase : TaskPhase
  deriving DecidableEq, Repr

/-- One scheduler step of the interleaved semantics: task j performs its next
enabled step. At start the guard `if (!sessions[sessionId])` is read
synchronously: when no truthy mapping exists the downstream init call is issued
and the task suspends with the registry still unchanged; otherwise the chat call
is forwarded at once. When the awaited init reply arrives, a success
confirmation stores the mapping and forwards the chat call, and a failure ends
the invocation without a forward. -/
def fineStep (s : Sessions) (ts : List TaskState) (j : Nat) :
    Sessions × List TaskState × List Event :=
  match ts[j]? with
  | none => (s, ts, [])
  | some t =>
    match t.phase with
    | .done => (s, ts, [])
    | .start =>
      if t.inv.sid = "" then
        (s, ts.set j ⟨t.inv, .done⟩, [])
      else if sessAbsent s t.inv.sid then
        (s, ts.set j ⟨t.inv, .awaitingInit⟩, [.initCall t.inv.sid])
      else
        (s, ts.set j ⟨t.inv, .done⟩, [.chatCall t.inv.sid])
    | .awaitingInit =>
      if goodInit t.inv.initR then
        ((t.inv.sid, t.inv.sid) :: s, ts.set j ⟨t.inv, .done⟩, [.chatCall t.inv.sid])
      else
        (s, ts.set j ⟨t.inv, .done⟩, [])

/-- Run the interleaved semantics under a schedule: the list of task indices in
the order the event loop resumes them. -/
def fineRun (s : Sessions) (ts : List TaskState) :
    List Nat → Sessions × List TaskState × List Event
  | [] => (s, ts, [])
  | j :: sched =>
    let p := fineStep s ts j
    let q := fineRun p.1 p.2.1 sched
    (q.1, q.2.1, p.2.2 ++ q.2.2)

/-- Non-overlapping execution in the interleaved semantics: each invocation is
scheduled to completion (both of its steps) before the next one starts. -/
def fineRunSerial (s : Sessions) : List Invocation → Sessions × List Event
  | [] => (s, [])
  | i :: tr =>
    let p := fineRun s [⟨i, TaskPhase.start⟩] [0, 0]
    let q := fineRunSerial p.1 tr
    (q.1, p.2.2 ++ q.2)

lemma initSession_good (s : Sessions) (sid : String) (r : InitResult)
    (h : goodInit r = true) :
    Insurance.initSession s sid r = .ok ((sid, sid) :: s) := by
  cases r with
  | reply m =>
    simp only [goodInit] at h
    split at h
    · simp [Insurance.initSession, *]
    · exact absurd h (by simp)
  | netErr e => simp [goodInit] at h

lemma initSession_bad (s : Sessions) (sid : String) (r : InitResult)
    (h : goodInit r = false) :
    ∃ e, Insurance.initSession s sid r = .error e := by
  cases r with
  | reply m =>
    simp only [goodInit] at h
    split at h
    · exact absurd h (by simp)
    · exact ⟨"Failed to initialize session: Error: Failed to initialize session with Health Shield Insurance",
        by simp [Insurance.initSession, *]⟩
  | netErr e => exact ⟨"Failed to initialize session: " ++ e, rfl⟩

lemma guard_ok (s : Sessions) (sid : String) (initR : InitResult)
    (hready : sessAbsent s sid = false ∨ goodInit initR = true) :
    ∃ s2, (if sessAbsent s sid then Insurance.initSession s sid initR else Except.ok s)
      = .ok s2 := by
  rcases hready with h | h
  · exact ⟨s, by simp [h]⟩
  · by_cases ha : sessAbsent s sid = true
    · exact ⟨_, by rw [ha, if_pos rfl, initSession_good s sid initR h]⟩
    · exact ⟨s, by simp [ha]⟩

/-- Claim C1 counterexample: an initialization failure propagates as a thrown
error out of both primary request tools, and a missing session key is thrown by
the InsuranceRequest handler, instead of producing a normal result with the error
flag set. -/
theorem claim_C1_cex :
    Insurance.InsuranceRequest [] "hello" (some "s1") (InitResult.reply "boom")
        (ChatFetch.reply 200 (some ⟨some "ok", none, none⟩))
      = .error "Failed to initialize session: Error: Failed to initialize session with Health Shield Insurance"
    ∧ Insurance.InsuranceRequest [] "hello" none (InitResult.reply "Session initialized successfully")
        (ChatFetch.reply 200 (some ⟨some "ok", none, none⟩))
      = .error "Session ID is missing from the context."
    ∧ Bakery.BakeryRequest [] "hello" "f1" (InitResult.netErr "ECONNREFUSED")
        (ChatFetch.reply 200 (some ⟨some "ok", none, none⟩))
      = .error "Failed to initialize session: ECONNREFUSED" :=
  ⟨rfl, rfl, rfl⟩

/-- Claim C1 (amended): once the session key is truthy and the session is either
already initialized or the initialization succeeds, the primary request tool
returns a normal result for every downstream chat behaviour, with the error flag
set exactly on the failing outcomes (for InsuranceRequest: transport error,
non-2xx status, malformed payload, application error field; for BakeryRequest:
transport and parse errors only); initialization failures and a missing session
key instead propagate as thrown errors. -/
theorem claim_C1_amended (s s2 : Sessions) (prompt fid : String) (sid : Option String)
    (initR initR2 : InitResult) (chatR : ChatFetch)
    (hsid : truthy sid = true)
    (hready : sessAbsent s (sid.getD "") = false ∨ goodInit initR = true)
    (hcur : sessAbsent s2 "currentSessionId" = false) :
    (∃ r s3, Insurance.InsuranceRequest s prompt sid initR chatR = .ok (r, s3)
        ∧ r.isError = chatFails chatR)
    ∧ (∃ r s3, Bakery.BakeryRequest s2 prompt fid initR2 chatR = .ok (r, s3)
        ∧ r.isError = bakeryChatFails chatR) := by
  constructor
  · obtain ⟨s3, hs3⟩ := guard_ok s (sid.getD "") initR hready
    rcases chatR with ⟨status, body⟩ | e
    · by_cases hok : isOk status = false
      · refine ⟨mkToolErr ("Error communicating with Health Shield Insurance: Status " ++ toString status),
          s3, ?_, ?_⟩
        · simp [Insurance.InsuranceRequest, hsid, hs3, hok]
        · simp [chatFails, hok, mkToolErr]
      · rcases body with _ | b
        · refine ⟨mkToolErr "Error communicating with Health Shield Insurance: SyntaxError", s3, ?_, ?_⟩
          · simp [Insurance.InsuranceRequest, hsid, hs3, hok]
          · simp [chatFails, hok, mkToolErr]
        · by_cases herr : truthy b.error = true
          · refine ⟨mkToolErr ("Insurance client reported an error: " ++ b.error.getD ""), s3, ?_, ?_⟩
            · simp [Insurance.InsuranceRequest, hsid, hs3, hok, herr]
            · simp [chatFails, hok, herr, mkToolErr]
          · rcases hresp : b.response with _ | t
            · refine ⟨mkToolErr "Received an invalid response structure from the insurance service.", s3, ?_, ?_⟩
              · simp [Insurance.InsuranceRequest, hsid, hs3, hok, herr, hresp]
              · simp [chatFails, hok, herr, hresp, mkToolErr]
            · refine ⟨⟨t, false, some b.toolUsed⟩, s3, ?_, ?_⟩
              · simp [Insurance.InsuranceRequest, hsid, hs3, hok, herr, hresp]
              · simp [chatFails, hok, herr, hresp]
    · refine ⟨mkToolErr ("Error communicating with Health Shield Insurance: " ++ e), s3, ?_, ?_⟩
      · simp [Insurance.InsuranceRequest, hsid, hs3]
      · simp [chatFails, mkToolErr]
  · rcases chatR with ⟨status, body⟩ | e
    · rcases body with _ | b
      · exact ⟨mkToolErr "Error communicating with Flour Bakery: SyntaxError", s2,
          by simp [Bakery.BakeryRequest, hcur], by simp [bakeryChatFails, mkToolErr]⟩
      · exact ⟨⟨jsStr b.response, false, some b.toolUsed⟩, s2,
          by simp [Bakery.BakeryRequest, hcur], by simp [bakeryChatFails]⟩
    · exact ⟨mkToolErr ("Error communicating with Flour Bakery: " ++ e), s2,
        by simp [Bakery.BakeryRequest, hcur], by simp [bakeryChatFails, mkToolErr]⟩

/-- Claim C1 amended witness at a concrete input. -/
theorem claim_C1_amended_witness :
    truthy (some "s1") = true
    ∧ sessAbsent [("s1", "s1")] ((some "s1").getD "") = false
    ∧ sessAbsent [("currentSessionId", "c")] "currentSessionId" = false
    ∧ ((∃ r s3, Insurance.InsuranceRequest [("s1", "s1")] "p" (some "s1")
          (InitResult.reply "x") (ChatFetch.netErr "E") = .ok (r, s3)
          ∧ r.isError = chatFails (ChatFetch.netErr "E"))
       ∧ (∃ r s3, Bakery.BakeryRequest [("currentSessionId", "c")] "p" "f"
          (InitResult.reply "x") (ChatFetch.netErr "E") = .ok (r, s3)
          ∧ r.isError = bakeryChatFails (ChatFetch.netErr "E"))) :=
  ⟨by decide, by decide, by decide,
    claim_C1_amended _ _ _ _ _ _ _ _ (by decide) (Or.inl (by decide)) (by decide)⟩

/-- Claim C2: when the downstream init confirmation is not the expected literal
(or the call fails in transit), initSession fails with a propagated error, the
chat prompt handler returns its apology with the registry unchanged, the
InsuranceRequest handler rethrows, and a subsequent capability invocation for the
same key attempts initialization again (its first downstream call is an init). -/
theorem claim_C2 (s : Sessions) (sid msg : String) (r r2 : InitResult)
    (c c2 : ChatFetch)
    (hbad : goodInit r = false) (hsid : sid ≠ "") (habs : sessAbsent s sid = true) :
    (∃ e, Insurance.initSession s sid r = .error e)
    ∧ Insurance.chatPrompt s msg (some sid) r c
        = .ok ([⟨"assistant", "Sorry, I couldn\x27t prepare the chat session."⟩], s)
    ∧ (∃ e, Insurance.InsuranceRequest s msg (some sid) r c = .error e)
    ∧ (stepEvents s ⟨sid, r2, c2⟩).2.head? = some (Event.initCall sid) := by
  obtain ⟨e, he⟩ := initSession_bad s sid r hbad
  refine ⟨⟨e, he⟩, ?_, ⟨e, ?_⟩, ?_⟩
  · simp [Insurance.chatPrompt, truthy, hsid, habs, he]
  · simp [Insurance.InsuranceRequest, truthy, hsid, habs, he]
  · simp only [stepEvents, hsid, if_false, habs, if_true]
    split <;> simp

/-- Claim C2 witness at a concrete input. -/
theorem claim_C2_witness :
    goodInit (InitResult.reply "nope") = false
    ∧ ("s1" : String) ≠ ""
    ∧ sessAbsent [] "s1" = true
    ∧ ((∃ e, Insurance.initSession [] "s1" (InitResult.reply "nope") = .error e)
       ∧ Insurance.chatPrompt [] "hi" (some "s1") (InitResult.reply "nope")
            (ChatFetch.netErr "E")
          = .ok ([⟨"assistant", "Sorry, I couldn\x27t prepare the chat session."⟩], [])
       ∧ (∃ e, Insurance.InsuranceRequest [] "hi" (some "s1") (InitResult.reply "nope")
            (ChatFetch.netErr "E") = .error e)
       ∧ (stepEvents [] ⟨"s1", InitResult.reply "nope", ChatFetch.netErr "E"⟩).2.head?
          = some (Event.initCall "s1")) :=
  ⟨by decide, by decide, by decide,
    claim_C2 [] "s1" "hi" (InitResult.reply "nope") (InitResult.reply "nope")
      (ChatFetch.netErr "E") (ChatFetch.netErr "E") (by decide) (by decide) (by decide)⟩

/-- Claim C3 counterexample: a downstream chat reply with HTTP status 500 whose
JSON body carries an error field boom is rendered from the status alone; the
error field text boom appears nowhere in the content of either handler. -/
theorem claim_C3_cex :
    Insurance.InsuranceRequest [("s1", "s1")] "hi" (some "s1") (InitResult.reply "m")
        (ChatFetch.reply 500 (some ⟨none, none, some "boom"⟩))
      = .ok (⟨"Error communicating with Health Shield Insurance: Status 500", true, none⟩, [("s1", "s1")])
    ∧ Insurance.chatPrompt [("s1", "s1")] "hi" (some "s1") (InitResult.reply "m")
        (ChatFetch.reply 500 (some ⟨none, none, some "boom"⟩))
      = .ok ([⟨"assistant", "Sorry, there was an issue communicating with the insurance service (Status: 500)."⟩], [("s1", "s1")])
    ∧ ¬ ("boom".data <:+: "Error communicating with Health Shield Insurance: Status 500".data)
    ∧ ¬ ("boom".data <:+: "Sorry, there was an issue communicating with the insurance service (Status: 500).".data) :=
  ⟨rfl, rfl, by set_option maxRecDepth 40000 in decide, by set_option maxRecDepth 40000 in decide⟩

/-- Claim C3 (amended): the handlers surface the application error field text with
the error indicator set only when the HTTP status is 2xx; a non-2xx reply still
sets the error indicator but its content names the status instead of the error
field, because the status check runs before the body is parsed. -/
theorem claim_C3_amended (s : Sessions) (sid msg : String) (initR : InitResult)
    (status : Nat) (b : ChatBody) (e : String)
    (hsid : sid ≠ "") (hready : sessAbsent s sid = false)
    (hok : isOk status = true) (he : b.error = some e) (hne : e ≠ "") :
    Insurance.InsuranceRequest s msg (some sid) initR (ChatFetch.reply status (some b))
      = .ok (⟨"Insurance client reported an error: " ++ e, true, none⟩, s)
    ∧ Insurance.chatPrompt s msg (some sid) initR (ChatFetch.reply status (some b))
      = .ok ([⟨"assistant", "Sorry, the insurance service reported an error: " ++ e⟩], s) := by
  have hts : truthy (some sid) = true := by simp [truthy, hsid]
  have herr : truthy (some e) = true := by simp [truthy, hne]
  constructor
  · simp [Insurance.InsuranceRequest, hts, hready, hok, he, herr, mkToolErr]
  · simp [Insurance.chatPrompt, hts, hready, hok, he, herr]

/-- Claim C3 amended witness at a concrete input. -/
theorem claim_C3_amended_witness :
    ("s1" : String) ≠ ""
    ∧ sessAbsent [("s1", "s1")] "s1" = false
    ∧ isOk 200 = true
    ∧ (ChatBody.mk none none (some "boom")).error = some "boom"
    ∧ ("boom" : String) ≠ ""
    ∧ (Insurance.InsuranceRequest [("s1", "s1")] "hi" (some "s1") (InitResult.reply "m")
          (ChatFetch.reply 200 (some ⟨none, none, some "boom"⟩))
        = .ok (⟨"Insurance client reported an error: " ++ "boom", true, none⟩, [("s1", "s1")])
       ∧ Insurance.chatPrompt [("s1", "s1")] "hi" (some "s1") (InitResult.reply "m")
          (ChatFetch.reply 200 (some ⟨none, none, some "boom"⟩))
        = .ok ([⟨"assistant", "Sorry, the insurance service reported an error: " ++ "boom"⟩], [("s1", "s1")])) :=
  ⟨by decide, by decide, by decide, by decide, by decide,
    claim_C3_amended [("s1", "s1")] "s1" "hi" (InitResult.reply "m") 200
      ⟨none, none, some "boom"⟩ "boom" (by decide) (by decide) (by decide) (by decide) (by decide)⟩

/-- Claim C4 counterexample: the BakeryRequest handler performs no HTTP status
check, so a status 400 reply with a well-formed JSON body yields a normal result
whose error flag is false and whose metadata carries toolUsed. -/
theorem claim_C4_cex :
    Bakery.BakeryRequest [("currentSessionId", "x")] "p" "f" (InitResult.reply "m")
        (ChatFetch.reply 400 (some ⟨some "hi", some "t", none⟩))
      = .ok (⟨"hi", false, some (some "t")⟩, [("currentSessionId", "x")]) := rfl

/-- Claim C4 (amended): in the context-keyed InsuranceRequest handler, every chat
reply with HTTP status at least 400 yields a result with the error indicator set
and no toolUsed metadata; the BakeryRequest handler ignores the HTTP status and
can return a normal result with metadata for such replies. -/
theorem claim_C4_amended (s : Sessions) (sid prompt : String) (initR : InitResult)
    (status : Nat) (body : Option ChatBody)
    (hsid : sid ≠ "") (hready : sessAbsent s sid = false) (hstat : 400 ≤ status) :
    Insurance.InsuranceRequest s prompt (some sid) initR (ChatFetch.reply status body)
      = .ok (⟨"Error communicating with Health Shield Insurance: Status " ++ toString status, true, none⟩, s) := by
  have hts : truthy (some sid) = true := by simp [truthy, hsid]
  have hok : isOk status = false := by
    simp only [isOk, Bool.and_eq_false_iff, decide_eq_false_iff_not]
    omega
  simp [Insurance.InsuranceRequest, hts, hready, hok, mkToolErr]

/-- Claim C4 amended witness at a concrete input. -/
theorem claim_C4_amended_witness :
    ("s1" : String) ≠ ""
    ∧ sessAbsent [("s1", "s1")] "s1" = false
    ∧ 400 ≤ 404
    ∧ Insurance.InsuranceRequest [("s1", "s1")] "p" (some "s1") (InitResult.reply "m")
        (ChatFetch.reply 404 (some ⟨some "hi", some "t", none⟩))
      = .ok (⟨"Error communicating with Health Shield Insurance: Status " ++ toString 404, true, none⟩, [("s1", "s1")]) :=
  ⟨by decide, by decide, by decide,
    claim_C4_amended [("s1", "s1")] "s1" "p" (InitResult.reply "m") 404
      (some ⟨some "hi", some "t", none⟩) (by decide) (by decide) (by decide)⟩

/-- Claim C5 counterexample: on a 2xx chat reply with no response field, the chat
prompt handler substitutes a placeholder and returns the normal two-turn success
exchange, with no error indication. -/
theorem claim_C5_cex :
    Insurance.chatPrompt [("s1", "s1")] "hi" (some "s1") (InitResult.reply "m")
        (ChatFetch.reply 200 (some ⟨none, none, none⟩))
      = .ok ([⟨"user", "hi"⟩, ⟨"assistant", "(No response text received)"⟩], [("s1", "s1")]) := rfl

/-- Claim C5 (amended): when the chat reply's response field is missing or not a
string, the InsuranceRequest tool returns an invalid-structure result with the
error flag set, but the chat prompt handler substitutes the placeholder text and
returns a normal two-turn exchange. -/
theorem claim_C5_amended (s : Sessions) (sid msg : String) (initR : InitResult)
    (status : Nat) (b : ChatBody)
    (hsid : sid ≠ "") (hready : sessAbsent s sid = false) (hok : isOk status = true)
    (herr : truthy b.error = false) (hresp : b.response = none) :
    Insurance.InsuranceRequest s msg (some sid) initR (ChatFetch.reply status (some b))
      = .ok (mkToolErr "Received an invalid response structure from the insurance service.", s)
    ∧ Insurance.chatPrompt s msg (some sid) initR (ChatFetch.reply status (some b))
      = .ok ([⟨"user", msg⟩,
              ⟨"assistant", "(No response text received)" ++ toolSuffix b.toolUsed⟩], s) := by
  have hts : truthy (some sid) = true := by simp [truthy, hsid]
  constructor
  · simp [Insurance.InsuranceRequest, hts, hready, hok, herr, hresp]
  · simp [Insurance.chatPrompt, hts, hready, hok, herr, hresp]

/-- Claim C5 amended witness at a concrete input. -/
theorem claim_C5_amended_witness :
    ("s1" : String) ≠ ""
    ∧ sessAbsent [("s1", "s1")] "s1" = false
    ∧ isOk 200 = true
    ∧ truthy (ChatBody.mk none none none).error = false
    ∧ (ChatBody.mk none none none).response = none
    ∧ (Insurance.InsuranceRequest [("s1", "s1")] "hi" (some "s1") (InitResult.reply "m")
          (ChatFetch.reply 200 (some ⟨none, none, none⟩))
        = .ok (mkToolErr "Received an invalid response structure from the insurance service.", [("s1", "s1")])
       ∧ Insurance.chatPrompt [("s1", "s1")] "hi" (some "s1") (InitResult.reply "m")
          (ChatFetch.reply 200 (some ⟨none, none, none⟩))
        = .ok ([⟨"user", "hi"⟩,
                ⟨"assistant", "(No response text received)" ++ toolSuffix (ChatBody.mk none none none).toolUsed⟩], [("s1", "s1")])) :=
  ⟨by decide, by decide, by decide, by decide, by decide,
    claim_C5_amended [("s1", "s1")] "s1" "hi" (InitResult.reply "m") 200
      ⟨none, none, none⟩ (by decide) (by decide) (by decide) (by decide) (by decide)⟩

@[simp] lemma truthy_none : truthy none = false := rfl

@[simp] lemma toolSuffix_none : toolSuffix none = "" := rfl

lemma guard_error (s : Sessions) (sid : String) (initR : InitResult) (e : String)
    (h : (if sessAbsent s sid then Insurance.initSession s sid initR else Except.ok s)
          = .error e) :
    sessAbsent s sid = true ∧ goodInit initR = false := by
  by_cases ha : sessAbsent s sid = true
  · refine ⟨ha, ?_⟩
    by_cases hg : goodInit initR = true
    · rw [ha, if_pos rfl, initSession_good s sid initR hg] at h
      cases h
    · simpa using hg
  · simp [ha] at h

lemma guard_ok_flag (s : Sessions) (sid : String) (initR : InitResult) (s2 : Sessions)
    (h : (if sessAbsent s sid then Insurance.initSession s sid initR else Except.ok s)
          = .ok s2) :
    (sessAbsent s sid && !(goodInit initR)) = false := by
  by_cases ha : sessAbsent s sid = true
  · by_cases hg : goodInit initR = true
    · simp [hg]
    · obtain ⟨e, he⟩ := initSession_bad s sid initR (by simpa using hg)
      rw [ha, if_pos rfl, he] at h
      cases h
  · simp [ha]

/-- Claim C6: once a session key is available from context, the context-keyed chat
prompt handler never throws: it always returns normally, yielding a single
assistant-role message on every failure path (failed initialization, transport
error, non-2xx status, parse failure, application error) and the two-turn
exchange otherwise. -/
theorem claim_C6 (s : Sessions) (msg : String) (sid : Option String)
    (initR : InitResult) (chatR : ChatFetch) (hsid : truthy sid = true) :
    ∃ msgs s2, Insurance.chatPrompt s msg sid initR chatR = .ok (msgs, s2)
      ∧ (promptFails s (sid.getD "") initR chatR = true →
          ∃ t, msgs = [⟨"assistant", t⟩])
      ∧ (promptFails s (sid.getD "") initR chatR = false →
          ∃ t, msgs = [⟨"user", msg⟩, ⟨"assistant", t⟩]) := by
  simp only [Insurance.chatPrompt, hsid, Bool.true_eq_false, if_false]
  split
  case _ e heq =>
    refine ⟨_, _, rfl, fun _ => ⟨_, rfl⟩, fun hf => ?_⟩
    obtain ⟨ha, hg⟩ := guard_error s (sid.getD "") initR e heq
    simp [promptFails, ha, hg] at hf
  case _ s2 heq =>
    have hflag := guard_ok_flag s (sid.getD "") initR s2 heq
    rcases chatR with ⟨status, body⟩ | e
    · by_cases hok : isOk status = false
      · refine ⟨[⟨"assistant", "Sorry, there was an issue communicating with the insurance service (Status: " ++ toString status ++ ")."⟩],
          s2, ?_, fun _ => ⟨_, rfl⟩, fun hf => ?_⟩
        · simp [hok]
        · simp [promptFails, hflag, promptChatFails, hok] at hf
      · rcases body with _ | b
        · refine ⟨[⟨"assistant", "Sorry, an unexpected error occurred while processing your chat message."⟩],
            s2, ?_, fun _ => ⟨_, rfl⟩, fun hf => ?_⟩
          · simp [hok]
          · simp [promptFails, hflag, promptChatFails, hok] at hf
        · by_cases herr : truthy b.error = true
          · refine ⟨[⟨"assistant", "Sorry, the insurance service reported an error: " ++ b.error.getD ""⟩],
              s2, ?_, fun _ => ⟨_, rfl⟩, fun hf => ?_⟩
            · simp [hok, herr]
            · simp [promptFails, hflag, promptChatFails, hok, herr] at hf
          · refine ⟨[⟨"user", msg⟩,
              ⟨"assistant", b.response.getD "(No response text received)" ++ toolSuffix b.toolUsed⟩],
              s2, ?_, fun hf => ?_, fun _ => ⟨_, rfl⟩⟩
            · simp [hok, herr]
            · simp [promptFails, hflag, promptChatFails, hok, herr] at hf
    · exact ⟨_, _, rfl, fun _ => ⟨_, rfl⟩,
        fun hf => by simp [promptFails, hflag, promptChatFails] at hf⟩

/-- Claim C6 witness at a concrete input. -/
theorem claim_C6_witness :
    truthy (some "s1") = true
    ∧ (∃ msgs s2, Insurance.chatPrompt [] "hi" (some "s1") (InitResult.netErr "down")
          (ChatFetch.netErr "E") = .ok (msgs, s2)
        ∧ (promptFails [] ((some "s1").getD "") (InitResult.netErr "down")
              (ChatFetch.netErr "E") = true → ∃ t, msgs = [⟨"assistant", t⟩])
        ∧ (promptFails [] ((some "s1").getD "") (InitResult.netErr "down")
              (ChatFetch.netErr "E") = false →
            ∃ t, msgs = [⟨"user", "hi"⟩, ⟨"assistant", t⟩])) :=
  ⟨by decide, claim_C6 [] "hi" (some "s1") (InitResult.netErr "down")
      (ChatFetch.netErr "E") (by decide)⟩

/-- Claim C7: when the downstream chat reply is 2xx and echoes the input message
as response with no toolUsed, both chat prompt handlers return exactly the
two-turn exchange: a user turn with the input verbatim and an assistant turn
equal to the echoed text verbatim, with no tool-used suffix. -/
theorem claim_C7 (s s2 : Sessions) (sid m fid : String) (status : Nat)
    (initR initR2 : InitResult)
    (hsid : sid ≠ "") (hready : sessAbsent s sid = false) (hok : isOk status = true)
    (hcur : sessAbsent s2 "currentSessionId" = false) :
    Insurance.chatPrompt s m (some sid) initR
        (ChatFetch.reply status (some ⟨some m, none, none⟩))
      = .ok ([⟨"user", m⟩, ⟨"assistant", m⟩], s)
    ∧ Bakery.chatPrompt s2 m fid initR2
        (ChatFetch.reply status (some ⟨some m, none, none⟩))
      = .ok ([⟨"user", m⟩, ⟨"assistant", m⟩], s2) := by
  have hts : truthy (some sid) = true := by simp [truthy, hsid]
  constructor
  · simp [Insurance.chatPrompt, hts, hready, hok, String.append_empty]
  · simp [Bakery.chatPrompt, hcur, jsStr, String.append_empty]

/-- Claim C7 witness at a concrete input. -/
theorem claim_C7_witness :
    ("s1" : String) ≠ ""
    ∧ sessAbsent [("s1", "s1")] "s1" = false
    ∧ isOk 200 = true
    ∧ sessAbsent [("currentSessionId", "c")] "currentSessionId" = false
    ∧ (Insurance.chatPrompt [("s1", "s1")] "echo" (some "s1") (InitResult.reply "m")
          (ChatFetch.reply 200 (some ⟨some "echo", none, none⟩))
        = .ok ([⟨"user", "echo"⟩, ⟨"assistant", "echo"⟩], [("s1", "s1")])
       ∧ Bakery.chatPrompt [("currentSessionId", "c")] "echo" "f" (InitResult.reply "m")
          (ChatFetch.reply 200 (some ⟨some "echo", none, none⟩))
        = .ok ([⟨"user", "echo"⟩, ⟨"assistant", "echo"⟩], [("currentSessionId", "c")])) :=
  ⟨by decide, by decide, by decide, by decide,
    claim_C7 [("s1", "s1")] [("currentSessionId", "c")] "s1" "echo" "f" 200
      (InitResult.reply "m") (InitResult.reply "m")
      (by decide) (by decide) (by decide) (by decide)⟩

/-- Claim C9 counterexample: a request whose sessionId query parameter is present
but empty, with no transport registered under the empty id, is answered with
status 400, not the 404 the claim requires for a present-but-unmatched id. -/
theorem claim_C9_cex :
    messagesPost [] (some "") Dispatch.handled = some (400, "Missing sessionId parameter")
    ∧ (400 : Nat) ≠ 404 :=
  ⟨rfl, by decide⟩

/-- Claim C9 (amended): POST /messages responds 400 when the sessionId query
parameter is absent or empty (falsy), 404 with a body naming the id when it is
present, non-empty and no open transport matches it, and 500 when dispatch to the
matching transport throws before any response was sent. -/
theorem claim_C9_amended (ts : List String) (sid : Option String) (d : Dispatch) :
    (truthy sid = false →
        messagesPost ts sid d = some (400, "Missing sessionId parameter"))
    ∧ (∀ v, sid = some v → v ≠ "" → ts.contains v = false →
        messagesPost ts sid d = some (404, "No transport found for sessionId: " ++ v))
    ∧ (∀ v e, sid = some v → v ≠ "" → ts.contains v = true →
        d = Dispatch.threw false e →
        messagesPost ts sid d = some (500, "Error handling message: " ++ e)) := by
  refine ⟨?_, ?_, ?_⟩
  · intro h
    simp [messagesPost, h]
  · intro v hv hne hct
    subst hv
    have hmem : v ∉ ts := by simpa using hct
    simp [messagesPost, truthy, hne, hmem]
  · intro v e hv hne hct hd
    subst hv
    subst hd
    have hmem : v ∈ ts := by simpa using hct
    simp [messagesPost, truthy, hne, hmem]

/-- Claim C9 amended witness at concrete inputs. -/
theorem claim_C9_amended_witness :
    messagesPost ["t1"] (some "ghost") Dispatch.handled
      = some (404, "No transport found for sessionId: " ++ "ghost")
    ∧ messagesPost [] none Dispatch.handled = some (400, "Missing sessionId parameter")
    ∧ messagesPost ["t1"] (some "t1") (Dispatch.threw false "boom")
      = some (500, "Error handling message: " ++ "boom") :=
  ⟨(claim_C9_amended ["t1"] (some "ghost") Dispatch.handled).2.1 "ghost" rfl
      (by decide) (by decide),
   (claim_C9_amended [] none Dispatch.handled).1 (by decide),
   (claim_C9_amended ["t1"] (some "t1") (Dispatch.threw false "boom")).2.2 "t1" "boom" rfl
      (by decide) (by decide) rfl⟩

lemma initSession_ok_shape (s : Sessions) (sid : String) (r : InitResult) (s2 : Sessions)
    (h : Insurance.initSession s sid r = .ok s2) : s2 = (sid, sid) :: s := by
  cases r with
  | netErr e => simp [Insurance.initSession] at h
  | reply m =>
    simp only [Insurance.initSession] at h
    split at h
    · cases h
      rfl
    · cases h

lemma runTrace_cons (s : Sessions) (i : Invocation) (tr : List Invocation) :
    runTrace s (i :: tr)
      = ((runTrace (stepEvents s i).1 tr).1,
         (stepEvents s i).2 ++ (runTrace (stepEvents s i).1 tr).2) := rfl

lemma eventsFor_append (a b : List Event) (k : String) :
    eventsFor (a ++ b) k = eventsFor a k ++ eventsFor b k := by
  simp [eventsFor, List.filter_append]

lemma stepEvents_preserves (s : Sessions) (i : Invocation) (k v : String)
    (hv : v ≠ "") (h : lookupSess s k = some v) :
    lookupSess (stepEvents s i).1 k = some v := by
  unfold stepEvents
  by_cases h0 : i.sid = ""
  · simp [h0, h]
  · by_cases ha : sessAbsent s i.sid = true
    · have hne : i.sid ≠ k := by
        intro hek
        rw [hek] at ha
        simp [sessAbsent, h, truthy, hv] at ha
      cases hi : Insurance.initSession s i.sid i.initR with
      | error e => simp [h0, ha, hi, h]
      | ok s2 =>
        have hs2 := initSession_ok_shape s i.sid i.initR s2 hi
        subst hs2
        simp [h0, ha, hi, lookupSess, hne, h]
    · simp [h0, ha, h]

lemma runTrace_preserves (tr : List Invocation) :
    ∀ s k v, v ≠ "" → lookupSess s k = some v →
      lookupSess (runTrace s tr).1 k = some v := by
  induction tr with
  | nil =>
    intro s k v hv h
    simpa [runTrace] using h
  | cons i tr ih =>
    intro s k v hv h
    rw [runTrace_cons]
    exact ih _ k v hv (stepEvents_preserves s i k v hv h)

lemma stepEvents_other (s : Sessions) (i : Invocation) (k : String) (hik : i.sid ≠ k) :
    eventsFor (stepEvents s i).2 k = []
      ∧ sessAbsent (stepEvents s i).1 k = sessAbsent s k := by
  have hb : (i.sid == k) = false := by simpa using hik
  by_cases h0 : i.sid = ""
  · have hp : stepEvents s i = (s, []) := by simp [stepEvents, h0]
    rw [hp]
    exact ⟨rfl, rfl⟩
  · by_cases ha : sessAbsent s i.sid = true
    · cases hi : Insurance.initSession s i.sid i.initR with
      | error e =>
        have hp : stepEvents s i = (s, [.initCall i.sid]) := by
          simp [stepEvents, h0, ha, hi]
        rw [hp]
        exact ⟨by simp [eventsFor, eventKey, hb], rfl⟩
      | ok s2 =>
        have hs2 := initSession_ok_shape s i.sid i.initR s2 hi
        subst hs2
        have hp : stepEvents s i
            = ((i.sid, i.sid) :: s, [.initCall i.sid, .chatCall i.sid]) := by
          simp [stepEvents, h0, ha, hi]
        rw [hp]
        refine ⟨by simp [eventsFor, eventKey, hb], ?_⟩
        simp [sessAbsent, lookupSess, hik]
    · have hp : stepEvents s i = (s, [.chatCall i.sid]) := by
        simp [stepEvents, h0, ha]
      rw [hp]
      exact ⟨by simp [eventsFor, eventKey, hb], rfl⟩

lemma stepEvents_hit_absent (s : Sessions) (i : Invocation)
    (h0 : i.sid ≠ "") (hg : goodInit i.initR = true) (ha : sessAbsent s i.sid = true) :
    stepEvents s i = ((i.sid, i.sid) :: s, [.initCall i.sid, .chatCall i.sid]) := by
  simp [stepEvents, h0, ha, initSession_good s i.sid i.initR hg]

lemma stepEvents_hit_present (s : Sessions) (i : Invocation)
    (h0 : i.sid ≠ "") (ha : sessAbsent s i.sid = false) :
    stepEvents s i = (s, [.chatCall i.sid]) := by
  simp [stepEvents, h0, ha]

lemma sessAbsent_cons_self (s : Sessions) (sid : String) (h0 : sid ≠ "") :
    sessAbsent ((sid, sid) :: s) sid = false := by
  simp [sessAbsent, lookupSess, truthy, h0]

lemma runTrace_eventsFor (tr : List Invocation) :
    ∀ s k, k ≠ "" → (∀ i ∈ tr, goodInit i.initR = true) →
      (if sessAbsent s k = true then
          ((∀ i ∈ tr, i.sid ≠ k) ∧ eventsFor (runTrace s tr).2 k = [])
          ∨ (∃ n, eventsFor (runTrace s tr).2 k
              = Event.initCall k :: List.replicate n (Event.chatCall k))
        else
          ∃ n, eventsFor (runTrace s tr).2 k = List.replicate n (Event.chatCall k)) := by
  induction tr with
  | nil =>
    intro s k hk hg
    by_cases ha : sessAbsent s k = true
    · rw [if_pos ha]
      exact Or.inl ⟨by simp, by simp [runTrace, eventsFor]⟩
    · rw [if_neg ha]
      exact ⟨0, by simp [runTrace, eventsFor]⟩
  | cons i tr ih =>
    intro s k hk hg
    have hgi : goodInit i.initR = true := hg i (by simp)
    have hgtr : ∀ j ∈ tr, goodInit j.initR = true := fun j hj => hg j (by simp [hj])
    by_cases hik : i.sid = k
    · subst hik
      have hself : (i.sid == i.sid) = true := by simp
      by_cases ha : sessAbsent s i.sid = true
      · rw [if_pos ha, runTrace_cons, stepEvents_hit_absent s i hk hgi ha]
        have ihh := ih ((i.sid, i.sid) :: s) i.sid hk hgtr
        rw [if_neg (by simp [sessAbsent_cons_self s i.sid hk])] at ihh
        obtain ⟨n, hn⟩ := ihh
        refine Or.inr ⟨n + 1, ?_⟩
        rw [eventsFor_append, hn]
        have hpair : eventsFor [Event.initCall i.sid, Event.chatCall i.sid] i.sid
            = [Event.initCall i.sid, Event.chatCall i.sid] := by
          simp [eventsFor, eventKey]
        rw [hpair, List.replicate_succ]
        rfl
      · rw [if_neg ha, runTrace_cons,
          stepEvents_hit_present s i hk (by simpa using ha)]
        have ihh := ih s i.sid hk hgtr
        rw [if_neg ha] at ihh
        obtain ⟨n, hn⟩ := ihh
        refine ⟨n + 1, ?_⟩
        rw [eventsFor_append, hn]
        have hpair : eventsFor [Event.chatCall i.sid] i.sid = [Event.chatCall i.sid] := by
          simp [eventsFor, eventKey]
        rw [hpair, List.replicate_succ]
        rfl
    · obtain ⟨he, hsa⟩ := stepEvents_other s i k hik
      have ihh := ih (stepEvents s i).1 k hk hgtr
      rw [hsa] at ihh
      by_cases ha : sessAbsent s k = true
      · rw [if_pos ha]
        rw [if_pos ha] at ihh
        rcases ihh with ⟨hall, hnil⟩ | ⟨n, hn⟩
        · refine Or.inl ⟨?_, ?_⟩
          · intro j hj
            rcases List.mem_cons.mp hj with hj | hj
            · rw [hj]
              exact hik
            · exact hall j hj
          · rw [runTrace_cons, eventsFor_append, he, hnil]
            rfl
        · exact Or.inr ⟨n, by rw [runTrace_cons, eventsFor_append, he, hn]; rfl⟩
      · rw [if_neg ha]
        rw [if_neg ha] at ihh
        obtain ⟨n, hn⟩ := ihh
        exact ⟨n, by rw [runTrace_cons, eventsFor_append, he, hn]; rfl⟩

lemma countInit_eventsFor (evs : List Event) (k : String) :
    countInit evs k = countInit (eventsFor evs k) k := by
  unfold countInit eventsFor
  rw [List.filter_filter]
  congr 1
  apply List.filter_congr
  intro e he
  by_cases hbeq : (e == Event.initCall k) = true
  · have heq : e = Event.initCall k := eq_of_beq hbeq
    subst heq
    simp [eventKey]
  · have hb : (e == Event.initCall k) = false := by simpa using hbeq
    simp [hb]

lemma chat_beq_init (a b : String) : (Event.chatCall a == Event.initCall b) = false := rfl

lemma countInit_cons_init (evs : List Event) (k : String) :
    countInit (Event.initCall k :: evs) k = countInit evs k + 1 := by
  simp [countInit, List.filter_cons]

lemma countInit_replicate (n : Nat) (k : String) :
    countInit (List.replicate n (Event.chatCall k)) k = 0 := by
  induction n with
  | zero => rfl
  | succ n ih =>
    rw [List.replicate_succ]
    simp only [countInit, List.filter_cons, chat_beq_init, if_false, Bool.false_eq_true] at ih ⊢
    exact ih

lemma fineRun_single (s : Sessions) (i : Invocation) :
    fineRun s [⟨i, TaskPhase.start⟩] [0, 0]
      = ((stepEvents s i).1, [⟨i, TaskPhase.done⟩], (stepEvents s i).2) := by
  by_cases h0 : i.sid = ""
  · simp [fineRun, fineStep, stepEvents, h0]
  · by_cases ha : sessAbsent s i.sid = true
    · by_cases hg : goodInit i.initR = true
      · simp [fineRun, fineStep, stepEvents, h0, ha, hg,
          initSession_good s i.sid i.initR hg]
      · obtain ⟨e, he⟩ := initSession_bad s i.sid i.initR (by simpa using hg)
        simp [fineRun, fineStep, stepEvents, h0, ha, hg, he]
    · simp [fineRun, fineStep, stepEvents, h0, ha]

lemma fineRunSerial_eq_runTrace (tr : List Invocation) :
    ∀ s, fineRunSerial s tr = ((runTrace s tr).1, (runTrace s tr).2) := by
  induction tr with
  | nil =>
    intro s
    rfl
  | cons i tr ih =>
    intro s
    simp only [fineRunSerial, fineRun_single, runTrace_cons, ih]

/-- Claim C8 counterexample: two overlapping first invocations for one unseen
key both read the guard before either init reply arrives and stores the mapping,
so two downstream initialize calls are issued for a single previously-unseen key
before its first message forward, even though every init succeeds: the
exactly-one-initialize property fails under the interleaved schedules the
runtime allows. -/
theorem claim_C8_cex :
    sessAbsent [] "a" = true
    ∧ (fineRun []
        [⟨⟨"a", InitResult.reply "Session initialized successfully", ChatFetch.netErr "E"⟩,
          TaskPhase.start⟩,
         ⟨⟨"a", InitResult.reply "Session initialized successfully", ChatFetch.netErr "E"⟩,
          TaskPhase.start⟩]
        [0, 1, 0, 1]).2.2
      = [Event.initCall "a", Event.initCall "a", Event.chatCall "a", Event.chatCall "a"]
    ∧ countInit (fineRun []
        [⟨⟨"a", InitResult.reply "Session initialized successfully", ChatFetch.netErr "E"⟩,
          TaskPhase.start⟩,
         ⟨⟨"a", InitResult.reply "Session initialized successfully", ChatFetch.netErr "E"⟩,
          TaskPhase.start⟩]
        [0, 1, 0, 1]).2.2 "a" = 2
    ∧ (2 : Nat) ≠ 1 :=
  ⟨by decide, by decide, by decide, by decide⟩

/-- Claim C8 (amended): provided capability invocations do not overlap (each is
scheduled to completion before the next begins), a previously-unseen session key
triggers at most one downstream initialize when all inits confirm success
(exactly one when some invocation uses the key), the first downstream call for
the key is the initialize (so it precedes every message forward for that key),
and a stored mapping is never mutated or removed by any later invocation; under
overlapping first invocations the guard read and the store are separated by
awaited downstream calls, so duplicate initializes can be issued for one key. -/
theorem claim_C8_amended (tr : List Invocation) (s : Sessions) (k : String)
    (hk : k ≠ "") (hgood : ∀ i ∈ tr, goodInit i.initR = true)
    (habs : sessAbsent s k = true) :
    countInit (fineRunSerial s tr).2 k ≤ 1
    ∧ ((∃ i ∈ tr, i.sid = k) → countInit (fineRunSerial s tr).2 k = 1)
    ∧ (eventsFor (fineRunSerial s tr).2 k = []
        ∨ (eventsFor (fineRunSerial s tr).2 k).head? = some (Event.initCall k))
    ∧ (∀ k2 v, v ≠ "" → lookupSess s k2 = some v →
        lookupSess (fineRunSerial s tr).1 k2 = some v) := by
  rw [fineRunSerial_eq_runTrace]
  have hshape := runTrace_eventsFor tr s k hk hgood
  rw [if_pos habs] at hshape
  refine ⟨?_, ?_, ?_, fun k2 v hv h => runTrace_preserves tr s k2 v hv h⟩
  · rcases hshape with ⟨_, hnil⟩ | ⟨n, hn⟩
    · rw [countInit_eventsFor, hnil]
      simp [countInit]
    · rw [countInit_eventsFor, hn, countInit_cons_init, countInit_replicate]
  · rintro ⟨i, hi, hik⟩
    rcases hshape with ⟨hall, _⟩ | ⟨n, hn⟩
    · exact absurd hik (hall i hi)
    · rw [countInit_eventsFor, hn, countInit_cons_init, countInit_replicate]
  · rcases hshape with ⟨_, hnil⟩ | ⟨n, hn⟩
    · exact Or.inl hnil
    · exact Or.inr (by rw [hn]; rfl)

/-- Claim C8 amended witness at a concrete one-invocation serial execution. -/
theorem claim_C8_amended_witness :
    ("a" : String) ≠ ""
    ∧ (∀ i ∈ ([⟨"a", InitResult.reply "Session initialized successfully",
          ChatFetch.netErr "E"⟩] : List Invocation), goodInit i.initR = true)
    ∧ sessAbsent [] "a" = true
    ∧ (countInit (fineRunSerial [] [⟨"a", InitResult.reply "Session initialized successfully",
          ChatFetch.netErr "E"⟩]).2 "a" ≤ 1
       ∧ ((∃ i ∈ ([⟨"a", InitResult.reply "Session initialized successfully",
            ChatFetch.netErr "E"⟩] : List Invocation), i.sid = "a") →
          countInit (fineRunSerial [] [⟨"a", InitResult.reply "Session initialized successfully",
            ChatFetch.netErr "E"⟩]).2 "a" = 1)
       ∧ (eventsFor (fineRunSerial [] [⟨"a", InitResult.reply "Session initialized successfully",
            ChatFetch.netErr "E"⟩]).2 "a" = []
          ∨ (eventsFor (fineRunSerial [] [⟨"a", InitResult.reply "Session initialized successfully",
              ChatFetch.netErr "E"⟩]).2 "a").head? = some (Event.initCall "a"))
       ∧ (∀ k2 v, v ≠ "" → lookupSess [] k2 = some v →
          lookupSess (fineRunSerial [] [⟨"a", InitResult.reply "Session initialized successfully",
            ChatFetch.netErr "E"⟩]).1 k2 = some v)) :=
  ⟨by decide, by decide, by decide,
    claim_C8_amended [⟨"a", InitResult.reply "Session initialized successfully",
        ChatFetch.netErr "E"⟩] [] "a" (by decide) (by decide) (by decide)⟩

lemma selfMap_step (s : Sessions) (i : Invocation)
    (h : ∀ p ∈ s, (p : String × String).1 = p.2) :
    ∀ p ∈ (stepEvents s i).1, (p : String × String).1 = p.2 := by
  unfold stepEvents
  by_cases h0 : i.sid = ""
  · simpa [h0] using h
  · by_cases ha : sessAbsent s i.sid = true
    · cases hi : Insurance.initSession s i.sid i.initR with
      | error e => simpa [h0, ha, hi] using h
      | ok s2 =>
        have hs2 := initSession_ok_shape s i.sid i.initR s2 hi
        subst hs2
        simp only [h0, ha, hi, if_true, if_false]
        rintro p hp
        rcases List.mem_cons.mp hp with hp | hp
        · rw [hp]
        · exact h p hp
    · simpa [h0, ha] using h

/-- Claim C10: in the context-keyed variant the downstream session identifier
stored by a successful initSession is the gateway session key itself, and every
entry the registry ever holds along any trace maps a key to itself. -/
theorem claim_C10 :
    (∀ s sid r s2, Insurance.initSession s sid r = .ok s2 →
        lookupSess s2 sid = some sid)
    ∧ (∀ tr : List Invocation, ∀ p ∈ (runTrace [] tr).1,
        (p : String × String).1 = p.2) := by
  constructor
  · intro s sid r s2 h
    rw [initSession_ok_shape s sid r s2 h]
    simp [lookupSess]
  · intro tr
    have h : ∀ s, (∀ p ∈ s, (p : String × String).1 = p.2) →
        ∀ p ∈ (runTrace s tr).1, (p : String × String).1 = p.2 := by
      induction tr with
      | nil =>
        intro s hs
        simpa [runTrace] using hs
      | cons i tr ih =>
        intro s hs
        rw [runTrace_cons]
        exact ih _ (selfMap_step s i hs)
    exact h [] (by simp)

/-- Claim C10 witness at a concrete input. -/
theorem claim_C10_witness :
    Insurance.initSession [] "a" (InitResult.reply "Session initialized successfully")
      = .ok [("a", "a")]
    ∧ lookupSess [("a", "a")] "a" = some "a"
    ∧ (("a", "a") ∈ (runTrace [] [⟨"a", InitResult.reply "Session initialized successfully",
          ChatFetch.netErr "E"⟩]).1
       ∧ (("a", "a") : String × String).1 = ("a", "a").2) :=
  ⟨rfl,
   claim_C10.1 [] "a" (InitResult.reply "Session initialized successfully") [("a", "a")] rfl,
   by decide,
   claim_C10.2 [⟨"a", InitResult.reply "Session initialized successfully",
      ChatFetch.netErr "E"⟩] ("a", "a") (by decide)⟩

end Gateway
